import Mathlib

/-!
Shallow embedding of the trading bot in `src/index.js`.

JavaScript numbers (prices, lamport balances, amounts) are modelled as exact
rationals (`ℚ`) or integers (`ℤ`); `Math.floor` becomes `Int.floor`.
Network effects are modelled by explicit oracle parameters: each network call's
result (success value or thrown error) is an input, and the calls a function
performs are recorded in an explicit event trace.
-/

/-- Result of `getTokenInfo` on success (the object built at src/index.js:106).
`price` is an `Option` because the Jupiter response entry may lack a `price`
field, in which case the JS value is `undefined`. -/
structure TokenInfo where
  price : Option ℚ
  source : String
  isFreezable : Bool
deriving DecidableEq

/-- `So111...` (src/index.js:37). -/
def solAddress : String := "So11111111111111111111111111111111111111112"

/-- src/index.js:4 (`LAMPORTS_PER_SOL` from web3.js). -/
def LAMPORTS_PER_SOL : ℚ := 1000000000

/-- `0.000005 * LAMPORTS_PER_SOL` (src/index.js:38). -/
def SOLANA_GAS_FEE_PRICE : ℚ := 0.000005 * LAMPORTS_PER_SOL

/-- `0.00001 * LAMPORTS_PER_SOL` (src/index.js:39). -/
def JITO_TIP_AMOUNT : ℚ := 0.00001 * LAMPORTS_PER_SOL

/-- Outcome of the Jupiter price request in `getTokenInfo` (src/index.js:69-78).
`netErr`: `axios.get` threw. `ok entry`: request answered; `entry = none` when
`response.data.data[mint]` is missing or falsy (the code then throws
"Jupiter API failed to return a valid price."), `entry = some price` when the
entry object is present, where `price = none` models an entry without a
`price` field (JS `undefined`). -/
inductive JupiterResult
  | netErr (msg : String)
  | ok (entry : Option (Option ℚ))
deriving DecidableEq

/-- The JS value of `...parsed.info.freezeAuthority` (src/index.js:104):
`null`, absent (`undefined`), or a key string. -/
inductive FreezeAuthority
  | jsNull
  | jsUndefined
  | auth (key : String)
deriving DecidableEq

/-- Outcome of `connection.getParsedAccountInfo` + the property chain
`mintAccountInfo.value.data.parsed.info.freezeAuthority` (src/index.js:103-104).
`netErr`: the RPC call threw; `malformed`: the value was null / not parsed, so
the property access threw a TypeError; `ok fa`: well-formed parsed mint data. -/
inductive MintInfoResult
  | netErr (msg : String)
  | malformed
  | ok (freezeAuthority : FreezeAuthority)
deriving DecidableEq

/-- Body of the `try` block of `getTokenInfo` (src/index.js:64-110): any
thrown error becomes `Except.error`. `isFreezable := freezeAuthority !== null`
(src/index.js:109). -/
def getTokenInfoBody (jup : JupiterResult) (mintInfo : MintInfoResult) :
    Except String TokenInfo :=
  match jup with
  | JupiterResult.netErr m => Except.error m
  | JupiterResult.ok none => Except.error "Jupiter API failed to return a valid price."
  | JupiterResult.ok (some price) =>
    match mintInfo with
    | MintInfoResult.netErr m => Except.error m
    | MintInfoResult.malformed => Except.error "TypeError"
    | MintInfoResult.ok fa =>
      Except.ok { price := price, source := "jupiter",
                  isFreezable := decide (fa ≠ FreezeAuthority.jsNull) }

/-- `getTokenInfo` (src/index.js:63-115): the catch clause logs the error and
the function returns `null` (`none`). -/
def getTokenInfo (jup : JupiterResult) (mintInfo : MintInfoResult) : Option TokenInfo :=
  match getTokenInfoBody jup mintInfo with
  | Except.ok ti => some ti
  | Except.error _ => none

/-- JS truthiness of `tokenInfo.price` for a rational-or-undefined price:
`undefined` and `0` are falsy. -/
def priceTruthy : Option ℚ → Bool
  | none => false
  | some p => decide (p ≠ 0)

/-- The loop condition `tokenInfo && tokenInfo.price` of
`waitForPriceAvailability` (src/index.js:121). -/
def priceCond : Option TokenInfo → Bool
  | none => false
  | some ti => priceTruthy ti.price

/-- The `while (true)` loop of `waitForPriceAvailability` (src/index.js:119-127),
given the oracle `fetches` of successive `getTokenInfo` results, with fuel
bounding how many iterations we observe and `k` the index of the next fetch.
Returns the price returned (or `none` if the loop is still running when fuel
runs out) together with the number of `getTokenInfo` calls performed. -/
def waitLoop (fetches : ℕ → Option TokenInfo) : ℕ → ℕ → Option ℚ × ℕ
  | 0, _ => (none, 0)
  | fuel + 1, k =>
    match fetches k with
    | some ti =>
      if priceTruthy ti.price then (ti.price, 1)
      else
        let r := waitLoop fetches fuel (k + 1)
        (r.1, r.2 + 1)
    | none =>
      let r := waitLoop fetches fuel (k + 1)
      (r.1, r.2 + 1)

/-- `waitForPriceAvailability` (src/index.js:118-128). -/
def waitForPriceAvailability (fetches : ℕ → Option TokenInfo) (fuel : ℕ) :
    Option ℚ × ℕ :=
  waitLoop fetches fuel 0

/-- Observable actions of `monitorAndSell`: one price fetch per loop iteration,
and the call `tradeTokenWithJupiter(tokenAddress, 100, false)` on the sell. -/
inductive MonitorEvent
  | fetchCall
  | sellCall (percentage : ℚ) (isBuy : Bool)
deriving DecidableEq

/-- The sell condition `currentPriceInfo && currentPriceInfo.price >= threshold`
(src/index.js:240); an `undefined` price compares false. -/
def sellCond (r : Option TokenInfo) (threshold : ℚ) : Bool :=
  match r with
  | none => false
  | some ti =>
    match ti.price with
    | none => false
    | some p => decide (threshold ≤ p)

/-- The `while (true)` loop of `monitorAndSell` (src/index.js:238-247): fetch,
test, sell-and-break or sleep-and-loop; fuel bounds the observed iterations. -/
def monitorLoop (fetches : ℕ → Option TokenInfo) (threshold : ℚ) :
    ℕ → ℕ → List MonitorEvent
  | 0, _ => []
  | fuel + 1, k =>
    MonitorEvent.fetchCall ::
      (if sellCond (fetches k) threshold then [MonitorEvent.sellCall 100 false]
       else monitorLoop fetches threshold fuel (k + 1))

/-- `monitorAndSell` (src/index.js:230-248): a `null` initial price logs an
error and returns immediately (empty trace); otherwise
`threshold = initialPrice * 1.2` (src/index.js:236) and the loop runs. -/
def monitorAndSell (fetches : ℕ → Option TokenInfo)
    (initialPrice : Option ℚ) (fuel : ℕ) : List MonitorEvent :=
  match initialPrice with
  | none => []
  | some p => monitorLoop fetches (p * 1.2) fuel 0

/-- A network / library call that either returns a value or throws. -/
inductive Step (α : Type)
  | ok (a : α)
  | throw (msg : String)
deriving DecidableEq

/-- `tokenBalance.value` of `getTokenAccountBalance` (src/index.js:153-154). -/
structure TokenBalance where
  uiAmount : ℚ
  decimals : ℕ
deriving DecidableEq

/-- Oracle for one iteration of the retry loop of `tradeTokenWithJupiter`:
the outcome of each awaited call inside the `try` block, in program order.
`quoteResponse` / `swapResponse`: `ok b` gives the HTTP `ok` flag, `throw` a
network error. `deserializeAndSign` covers `transaction_response.json()`,
base64 decode, `VersionedTransaction.deserialize` and `sign`
(src/index.js:177-181). `sendBundle`: `ok none` models a falsy bundle UUID
(the code then throws "Bundle UUID not received"). `postBuyTokenInfo` is the
`getTokenInfo` result of the post-buy price re-query (src/index.js:205). -/
structure AttemptEnv where
  getBalance : Step ℤ
  getTokenAccountBalance : Step TokenBalance
  quoteResponse : Step Bool
  swapResponse : Step Bool
  deserializeAndSign : Step Unit
  addTransactions : Step Unit
  getTipAccounts : Step (List String)
  getLatestBlockhash : Step Unit
  addTipTx : Step Unit
  sendBundle : Step (Option String)
  postBuyTokenInfo : Option TokenInfo

/-- Observable actions of one `tradeTokenWithJupiter` run. -/
inductive TradeEvent
  | getBalanceCall
  | getTokenBalanceCall
  | quoteCall (inputMint outputMint : String) (amount : ℚ) (slippageBps : ℚ)
  | swapCall
  | tipAccountsCall
  | blockhashCall
  | sendBundleCall
  | priceRecheckCall
  | backoffDelay (seconds : ℕ)
deriving DecidableEq

/-- Outcome of one iteration of the retry loop: the early `return false` on a
negative buy amount (src/index.js:148), a successful `return {success: true,
initialPrice}` (src/index.js:210), or a caught exception. -/
inductive AttemptOutcome
  | returnedFalse
  | success (initialPrice : Option ℚ)
  | failed (msg : String)
deriving DecidableEq

/-- The value `tradeTokenWithJupiter` produces: `false`, the
`{success: true, initialPrice}` object, or `undefined` when the `while` loop
never runs or exits normally (src/index.js:134-227). -/
inductive TradeReturn
  | falseRet
  | objRet (initialPrice : Option ℚ)
  | undefinedRet
deriving DecidableEq

/-- `Math.floor(balance * (percentage / 100)) - SOLANA_GAS_FEE_PRICE -
JITO_TIP_AMOUNT` (src/index.js:142). -/
def buyAmount (balance : ℤ) (percentage : ℚ) : ℚ :=
  ((⌊(balance : ℚ) * (percentage / 100)⌋ : ℤ) : ℚ) - SOLANA_GAS_FEE_PRICE - JITO_TIP_AMOUNT

/-- `Math.floor(tokenBalance.value.uiAmount * (percentage / 100) *
Math.pow(10, tokenBalance.value.decimals))` (src/index.js:154). -/
def sellAmount (uiAmount : ℚ) (decimals : ℕ) (percentage : ℚ) : ℚ :=
  ((⌊uiAmount * (percentage / 100) * (10 : ℚ) ^ decimals⌋ : ℤ) : ℚ)

/-- `initialPrice = tokenInfo ? tokenInfo.price : null` (src/index.js:206). -/
def initialPriceOf : Option TokenInfo → Option ℚ
  | some ti => ti.price
  | none => none

/-- The part of one retry-loop iteration after the trade has been sized
(src/index.js:159-213): quote fetch, swap fetch, deserialize/sign, bundle
construction, tip accounts, blockhash, tip transaction, bundle submission,
and the post-buy price re-query. An empty tip-account list makes
`new PublicKey(tipAccounts[0])` throw. -/
def attemptRest (env : AttemptEnv) (inputMint outputMint : String) (amount : ℚ)
    (isBuy : Bool) (slippage : ℚ) : AttemptOutcome × List TradeEvent :=
  let qEv := TradeEvent.quoteCall inputMint outputMint amount (slippage * 100)
  match env.quoteResponse with
  | Step.throw m => (AttemptOutcome.failed m, [qEv])
  | Step.ok false => (AttemptOutcome.failed "HTTP quote error", [qEv])
  | Step.ok true =>
    match env.swapResponse with
    | Step.throw m => (AttemptOutcome.failed m, [qEv, TradeEvent.swapCall])
    | Step.ok false => (AttemptOutcome.failed "HTTP error", [qEv, TradeEvent.swapCall])
    | Step.ok true =>
      match env.deserializeAndSign with
      | Step.throw m => (AttemptOutcome.failed m, [qEv, TradeEvent.swapCall])
      | Step.ok _ =>
        match env.addTransactions with
        | Step.throw m => (AttemptOutcome.failed m, [qEv, TradeEvent.swapCall])
        | Step.ok _ =>
          match env.getTipAccounts with
          | Step.throw m =>
            (AttemptOutcome.failed m, [qEv, TradeEvent.swapCall, TradeEvent.tipAccountsCall])
          | Step.ok [] =>
            (AttemptOutcome.failed "invalid tip account",
             [qEv, TradeEvent.swapCall, TradeEvent.tipAccountsCall])
          | Step.ok (_ :: _) =>
            match env.getLatestBlockhash with
            | Step.throw m =>
              (AttemptOutcome.failed m,
               [qEv, TradeEvent.swapCall, TradeEvent.tipAccountsCall, TradeEvent.blockhashCall])
            | Step.ok _ =>
              match env.addTipTx with
              | Step.throw m =>
                (AttemptOutcome.failed m,
                 [qEv, TradeEvent.swapCall, TradeEvent.tipAccountsCall, TradeEvent.blockhashCall])
              | Step.ok _ =>
                match env.sendBundle with
                | Step.throw m =>
                  (AttemptOutcome.failed m,
                   [qEv, TradeEvent.swapCall, TradeEvent.tipAccountsCall,
                    TradeEvent.blockhashCall, TradeEvent.sendBundleCall])
                | Step.ok none =>
                  (AttemptOutcome.failed "Bundle UUID not received",
                   [qEv, TradeEvent.swapCall, TradeEvent.tipAccountsCall,
                    TradeEvent.blockhashCall, TradeEvent.sendBundleCall])
                | Step.ok (some _) =>
                  if isBuy then
                    (AttemptOutcome.success (initialPriceOf env.postBuyTokenInfo),
                     [qEv, TradeEvent.swapCall, TradeEvent.tipAccountsCall,
                      TradeEvent.blockhashCall, TradeEvent.sendBundleCall,
                      TradeEvent.priceRecheckCall])
                  else
                    (AttemptOutcome.success none,
                     [qEv, TradeEvent.swapCall, TradeEvent.tipAccountsCall,
                      TradeEvent.blockhashCall, TradeEvent.sendBundleCall])

/-- One iteration of the retry loop of `tradeTokenWithJupiter`
(src/index.js:135-213): size the trade (buy: src/index.js:140-149, sell:
src/index.js:150-157) and run the rest. -/
def runAttempt (env : AttemptEnv) (tokenAddress : String) (percentage : ℚ)
    (isBuy : Bool) (slippage : ℚ) : AttemptOutcome × List TradeEvent :=
  if isBuy then
    match env.getBalance with
    | Step.throw m => (AttemptOutcome.failed m, [TradeEvent.getBalanceCall])
    | Step.ok balance =>
      let amount := buyAmount balance percentage
      if amount < 0 then (AttemptOutcome.returnedFalse, [TradeEvent.getBalanceCall])
      else
        let r := attemptRest env solAddress tokenAddress amount true slippage
        (r.1, TradeEvent.getBalanceCall :: r.2)
  else
    match env.getTokenAccountBalance with
    | Step.throw m => (AttemptOutcome.failed m, [TradeEvent.getTokenBalanceCall])
    | Step.ok tb =>
      let amount := sellAmount tb.uiAmount tb.decimals percentage
      let r := attemptRest env tokenAddress solAddress amount false slippage
      (r.1, TradeEvent.getTokenBalanceCall :: r.2)

/-- The `while (retries < maxRetries)` loop of `tradeTokenWithJupiter`
(src/index.js:134-227): on a caught exception, `retries is incremented; if
`retries >= maxRetries` the function returns `false`, otherwise it sleeps
`Math.pow(2, retries)` seconds (src/index.js:224) and iterates. Falling out of
the loop returns `undefined`. -/
def tradeLoop (envs : ℕ → AttemptEnv) (tokenAddress : String) (percentage : ℚ)
    (isBuy : Bool) (slippage : ℚ) (maxRetries : ℤ) (retries : ℕ) :
    TradeReturn × List TradeEvent :=
  if _h : (retries : ℤ) < maxRetries then
    match (runAttempt (envs retries) tokenAddress percentage isBuy slippage).1 with
    | AttemptOutcome.returnedFalse =>
      (TradeReturn.falseRet, (runAttempt (envs retries) tokenAddress percentage isBuy slippage).2)
    | AttemptOutcome.success ip =>
      (TradeReturn.objRet ip, (runAttempt (envs retries) tokenAddress percentage isBuy slippage).2)
    | AttemptOutcome.failed _ =>
      if _h2 : maxRetries ≤ (retries : ℤ) + 1 then
        (TradeReturn.falseRet, (runAttempt (envs retries) tokenAddress percentage isBuy slippage).2)
      else
        ((tradeLoop envs tokenAddress percentage isBuy slippage maxRetries (retries + 1)).1,
         (runAttempt (envs retries) tokenAddress percentage isBuy slippage).2 ++
           TradeEvent.backoffDelay (2 ^ (retries + 1)) ::
             (tradeLoop envs tokenAddress percentage isBuy slippage maxRetries (retries + 1)).2)
  else
    (TradeReturn.undefinedRet, [])
termination_by (maxRetries - (retries : ℤ)).toNat
decreasing_by all_goals omega

/-- `tradeTokenWithJupiter` (src/index.js:130-227), starting at `retries = 0`.
In the source, `isBuy`, `slippage` and `maxRetries` default to
`true`, `5`, `3`. -/
def tradeTokenWithJupiter (envs : ℕ → AttemptEnv) (tokenAddress : String)
    (percentage : ℚ) (isBuy : Bool) (slippage : ℚ) (maxRetries : ℤ) :
    TradeReturn × List TradeEvent :=
  tradeLoop envs tokenAddress percentage isBuy slippage maxRetries 0

/-- An event that starts a retry-loop iteration (the first awaited call of the
sizing step). -/
def isAttemptStart : TradeEvent → Bool
  | TradeEvent.getBalanceCall => true
  | TradeEvent.getTokenBalanceCall => true
  | _ => false

/-- Number of retry-loop iterations started, read off the trace. -/
def attemptStarts (evs : List TradeEvent) : ℕ := evs.countP isAttemptStart

/-- The backoff delays (in seconds) occurring in a trace, in order. -/
def backoffs (evs : List TradeEvent) : List ℕ :=
  evs.filterMap fun e =>
    match e with
    | TradeEvent.backoffDelay s => some s
    | _ => none

/-- The amounts passed to the quote endpoint, in order. -/
def quoteAmounts (evs : List TradeEvent) : List ℚ :=
  evs.filterMap fun e =>
    match e with
    | TradeEvent.quoteCall _ _ a _ => some a
    | _ => none

/-- Number of bundle submissions in a trace. -/
def sendBundleCalls (evs : List TradeEvent) : ℕ :=
  evs.countP fun e =>
    match e with
    | TradeEvent.sendBundleCall => true
    | _ => false

/-- JS truthiness of `process.env[name]`: absent or empty string is falsy. -/
def jsTruthyStr : Option String → Bool
  | none => false
  | some s => decide (s ≠ "")

/-- `requiredEnvVars` (src/index.js:41-44). -/
def requiredEnvVars : List String := ["PRIVATE_KEY", "API_KEY"]

/-- `missingVars` in `checkEnvVariables` (src/index.js:47). -/
def missingEnvVars (env : String → Option String) : List String :=
  requiredEnvVars.filter fun v => !jsTruthyStr (env v)

/-- How startup terminates: the module-level `throw` at src/index.js:16-18
(before any logging of a missing-variable list), `process.exit(1)` after
logging `missingVars` (src/index.js:48-51), or normal continuation. -/
inductive StartupOutcome
  | thrownAtLoad (msg : String)
  | exitCode1 (loggedMissingVars : List String)
  | started
deriving DecidableEq

/-- Startup behaviour of the module: lines 15-18 run at import time, before
`main` calls `checkEnvVariables` (src/index.js:252). -/
def startup (env : String → Option String) : StartupOutcome :=
  if !jsTruthyStr (env "PRIVATE_KEY") then
    StartupOutcome.thrownAtLoad "PRIVATE_KEY environment variable is not set."
  else
    let ms := missingEnvVars env
    if ms.length > 0 then StartupOutcome.exitCode1 ms
    else StartupOutcome.started

/-- An attempt environment in which the very first awaited call throws. -/
def failEnv : AttemptEnv where
  getBalance := Step.throw "network"
  getTokenAccountBalance := Step.throw "network"
  quoteResponse := Step.throw "network"
  swapResponse := Step.throw "network"
  deserializeAndSign := Step.throw "network"
  addTransactions := Step.throw "network"
  getTipAccounts := Step.throw "network"
  getLatestBlockhash := Step.throw "network"
  addTipTx := Step.throw "network"
  sendBundle := Step.throw "network"
  postBuyTokenInfo := none

/-- An attempt environment in which every call succeeds. -/
def okEnv (bal : ℤ) (info : Option TokenInfo) : AttemptEnv where
  getBalance := Step.ok bal
  getTokenAccountBalance := Step.ok ⟨100, 6⟩
  quoteResponse := Step.ok true
  swapResponse := Step.ok true
  deserializeAndSign := Step.ok ()
  addTransactions := Step.ok ()
  getTipAccounts := Step.ok ["tip1"]
  getLatestBlockhash := Step.ok ()
  addTipTx := Step.ok ()
  sendBundle := Step.ok (some "uuid")
  postBuyTokenInfo := info

/-- Attempt oracles where attempt 0 fails at the first call and attempt 1
succeeds, with a post-buy re-query price of `2`. -/
def successEnvs : ℕ → AttemptEnv :=
  fun i =>
    if i = 1 then okEnv 1000000000 (some { price := some 2, source := "jupiter", isFreezable := false })
    else failEnv

/-- A fetch oracle that always answers with a defined price of `0`
(non-null result, defined but falsy price field). -/
def constPriceZeroFetches : ℕ → Option TokenInfo :=
  fun _ => some { price := some 0, source := "jupiter", isFreezable := false }

/-- A fetch oracle: first fetch fails, second yields price `3`. -/
def delayedPriceFetches : ℕ → Option TokenInfo :=
  fun n => if n = 0 then none else some { price := some 3, source := "jupiter", isFreezable := false }

/-- An environment with `API_KEY` set but `PRIVATE_KEY` absent. -/
def envMissingPrivateKey : String → Option String :=
  fun v => if v = "API_KEY" then some "key" else none

/-- An environment with `PRIVATE_KEY` set but `API_KEY` absent. -/
def envOnlyPrivateKey : String → Option String :=
  fun v => if v = "PRIVATE_KEY" then some "pk" else none

/-! ### Lemmas about the monitor loop -/

theorem monitorLoop_no_hit (fetches : ℕ → Option TokenInfo) (t : ℚ) :
    ∀ (fuel k : ℕ), (∀ j, j < fuel → sellCond (fetches (k + j)) t = false) →
    monitorLoop fetches t fuel k = List.replicate fuel MonitorEvent.fetchCall := by
  intro fuel
  induction fuel with
  | zero => intro k _; rfl
  | succ n ih =>
    intro k h
    have h0 : sellCond (fetches k) t = false := by simpa using h 0 (Nat.succ_pos n)
    simp only [monitorLoop, h0, Bool.false_eq_true, if_false]
    rw [ih (k + 1) (fun j hj => by
      have := h (j + 1) (Nat.succ_lt_succ hj)
      rwa [show k + (j + 1) = k + 1 + j by omega] at this)]
    simp [List.replicate_succ]

theorem monitorLoop_hit (fetches : ℕ → Option TokenInfo) (t : ℚ) :
    ∀ (fuel j k : ℕ), j < fuel → sellCond (fetches (k + j)) t = true →
    (∀ i, i < j → sellCond (fetches (k + i)) t = false) →
    monitorLoop fetches t fuel k =
      List.replicate (j + 1) MonitorEvent.fetchCall ++ [MonitorEvent.sellCall 100 false] := by
  intro fuel
  induction fuel with
  | zero => intro j k hj; exact absurd hj (Nat.not_lt_zero j)
  | succ n ih =>
    intro j k hj hhit hmin
    cases j with
    | zero =>
      have h0 : sellCond (fetches k) t = true := by simpa using hhit
      simp [monitorLoop, h0, List.replicate_succ]
    | succ m =>
      have h0 : sellCond (fetches k) t = false := by simpa using hmin 0 (Nat.succ_pos m)
      simp only [monitorLoop, h0, Bool.false_eq_true, if_false]
      rw [ih m (k + 1) (by omega)
        (by rwa [show k + 1 + m = k + (m + 1) by omega])
        (fun i hi => by
          have := hmin (i + 1) (by omega)
          rwa [show k + (i + 1) = k + 1 + i by omega] at this)]
      simp [List.replicate_succ]

/-- Claim C1: for every non-null `initialPrice`, `monitorAndSell` triggers a
sell (one call to the trade executor with percentage 100 and `isBuy = false`)
iff some observed fetch within the horizon yields a defined price at or above
`initialPrice * 1.2`, and it never sells before the first poll where that
condition holds: up to there the trace is price fetches only, and the sell, if
any, immediately follows that first poll. -/
theorem monitorAndSell_sells_iff_threshold
    (fetches : ℕ → Option TokenInfo) (q : ℚ) (fuel : ℕ) :
    (MonitorEvent.sellCall 100 false ∈ monitorAndSell fetches (some q) fuel ↔
      ∃ j, j < fuel ∧ sellCond (fetches j) (q * 1.2) = true) ∧
    (∀ j, j < fuel → sellCond (fetches j) (q * 1.2) = true →
      (∀ i, i < j → sellCond (fetches i) (q * 1.2) = false) →
      monitorAndSell fetches (some q) fuel =
        List.replicate (j + 1) MonitorEvent.fetchCall ++ [MonitorEvent.sellCall 100 false]) := by
  have hms : monitorAndSell fetches (some q) fuel = monitorLoop fetches (q * 1.2) fuel 0 := rfl
  have hpart2 : ∀ j, j < fuel → sellCond (fetches j) (q * 1.2) = true →
      (∀ i, i < j → sellCond (fetches i) (q * 1.2) = false) →
      monitorAndSell fetches (some q) fuel =
        List.replicate (j + 1) MonitorEvent.fetchCall ++ [MonitorEvent.sellCall 100 false] := by
    intro j hj hhit hmin
    rw [hms]
    exact monitorLoop_hit fetches (q * 1.2) fuel j 0 hj (by simpa using hhit)
      (fun i hi => by simpa using hmin i hi)
  refine ⟨⟨?_, ?_⟩, hpart2⟩
  · intro hmem
    by_contra hno
    push_neg at hno
    have hall : ∀ j, j < fuel → sellCond (fetches j) (q * 1.2) = false := by
      intro j hj
      rcases Bool.eq_false_or_eq_true (sellCond (fetches j) (q * 1.2)) with ht | hf
      · exact absurd ht (hno j hj)
      · exact hf
    rw [hms, monitorLoop_no_hit fetches (q * 1.2) fuel 0
      (fun j hj => by simpa using hall j hj)] at hmem
    have := List.eq_of_mem_replicate hmem
    exact absurd this (by simp)
  · rintro ⟨j, hj, hcond⟩
    have hex : ∃ i, sellCond (fetches i) (q * 1.2) = true := ⟨j, hcond⟩
    have hj0 : Nat.find hex ≤ j := Nat.find_min' hex hcond
    have hspec := Nat.find_spec hex
    have hmin : ∀ i, i < Nat.find hex → sellCond (fetches i) (q * 1.2) = false := by
      intro i hi
      have hni := Nat.find_min hex hi
      rcases Bool.eq_false_or_eq_true (sellCond (fetches i) (q * 1.2)) with ht | hf
      · exact absurd ht hni
      · exact hf
    rw [hpart2 (Nat.find hex) (by omega) hspec hmin]
    simp

/-- Claim C6: `monitorAndSell` called with a null initial price performs zero
network calls (no price fetch, no sell attempt): its trace is empty. -/
theorem monitorAndSell_null_initialPrice (fetches : ℕ → Option TokenInfo) (fuel : ℕ) :
    monitorAndSell fetches none fuel = [] := rfl

/-- Witness for C1 at a concrete input: one poll at price `2` with
`initialPrice = 1` (threshold `1.2`) sells on the first poll. -/
theorem monitorAndSell_sells_iff_threshold_witness :
    monitorAndSell (fun _ => some ⟨some 2, "jupiter", false⟩) (some 1) 1 =
      List.replicate 1 MonitorEvent.fetchCall ++ [MonitorEvent.sellCall 100 false] :=
  (monitorAndSell_sells_iff_threshold (fun _ => some ⟨some 2, "jupiter", false⟩) 1 1).2
    0 (by norm_num) (by norm_num [sellCond]) (fun i hi => absurd hi (Nat.not_lt_zero i))

/-! ### Lemmas about the wait loop -/

theorem waitLoop_no_hit (fetches : ℕ → Option TokenInfo) :
    ∀ (fuel k : ℕ), (∀ j, j < fuel → priceCond (fetches (k + j)) = false) →
    waitLoop fetches fuel k = (none, fuel) := by
  intro fuel
  induction fuel with
  | zero => intro k _; rfl
  | succ n ih =>
    intro k h
    have h0 : priceCond (fetches k) = false := by simpa using h 0 (Nat.succ_pos n)
    have hrec : waitLoop fetches n (k + 1) = (none, n) :=
      ih (k + 1) (fun j hj => by
        have := h (j + 1) (Nat.succ_lt_succ hj)
        rwa [show k + (j + 1) = k + 1 + j by omega] at this)
    cases hk : fetches k with
    | none => simp [waitLoop, hk, hrec]
    | some ti0 =>
      have hpt : priceTruthy ti0.price = false := by
        rw [hk] at h0; simpa [priceCond] using h0
      simp [waitLoop, hk, hpt, hrec]

theorem waitLoop_hit (fetches : ℕ → Option TokenInfo) :
    ∀ (fuel j k : ℕ) (ti : TokenInfo) (p : ℚ), j < fuel →
    (∀ i, i < j → priceCond (fetches (k + i)) = false) →
    fetches (k + j) = some ti → ti.price = some p → p ≠ 0 →
    waitLoop fetches fuel k = (some p, j + 1) := by
  intro fuel
  induction fuel with
  | zero => intro j k ti p hj _ _ _ _; exact absurd hj (Nat.not_lt_zero j)
  | succ n ih =>
    intro j k ti p hj hmin hf hp hp0
    cases j with
    | zero =>
      rw [Nat.add_zero] at hf
      simp [waitLoop, hf, priceTruthy, hp, hp0]
    | succ m =>
      have h0 : priceCond (fetches k) = false := by simpa using hmin 0 (Nat.succ_pos m)
      have hrec : waitLoop fetches n (k + 1) = (some p, m + 1) :=
        ih m (k + 1) ti p (by omega)
          (fun i hi => by
            have := hmin (i + 1) (by omega)
            rwa [show k + (i + 1) = k + 1 + i by omega] at this)
          (by rwa [show k + (m + 1) = k + 1 + m by omega] at hf) hp hp0
      cases hk : fetches k with
      | none => simp [waitLoop, hk, hrec]
      | some ti0 =>
        have hpt : priceTruthy ti0.price = false := by
          rw [hk] at h0; simpa [priceCond] using h0
        simp [waitLoop, hk, hpt, hrec]

/-- Counterexample to claim C4 as stated: a first fetch that is non-null with a
defined price field (price `0`) does not make `waitForPriceAvailability`
return; the JS truthiness test `tokenInfo && tokenInfo.price` rejects a zero
price, so the loop keeps polling (here: five fetches, still no return). -/
theorem waitForPriceAvailability_zero_price_counterexample :
    (∃ ti, constPriceZeroFetches 0 = some ti ∧ ti.price.isSome = true) ∧
    waitForPriceAvailability constPriceZeroFetches 5 = (none, 5) :=
  ⟨⟨⟨some 0, "jupiter", false⟩, rfl, rfl⟩, by decide⟩

/-- Claim C4 (amended): `waitForPriceAvailability` returns on exactly the first
fetch whose result is non-null with a truthy — defined and nonzero — price,
returning that price (having made exactly `k + 1` fetches); while every fetch
yields null, an undefined price, or a zero price, it keeps polling and never
returns. -/
theorem waitForPriceAvailability_first_truthy_price
    (fetches : ℕ → Option TokenInfo) (fuel : ℕ) :
    (∀ (k : ℕ) (ti : TokenInfo) (p : ℚ), k < fuel →
      (∀ i, i < k → priceCond (fetches i) = false) →
      fetches k = some ti → ti.price = some p → p ≠ 0 →
      waitForPriceAvailability fetches fuel = (some p, k + 1)) ∧
    ((∀ j, j < fuel → priceCond (fetches j) = false) →
      waitForPriceAvailability fetches fuel = (none, fuel)) := by
  constructor
  · intro k ti p hk hmin hf hp hp0
    exact waitLoop_hit fetches fuel k 0 ti p hk (fun i hi => by simpa using hmin i hi)
      (by simpa using hf) hp hp0
  · intro h
    exact waitLoop_no_hit fetches fuel 0 (fun j hj => by simpa using h j hj)

/-- Witness for the amended C4: the first fetch fails, the second delivers
price `3`; the wait returns `3` after exactly two fetches. -/
theorem waitForPriceAvailability_first_truthy_price_witness :
    waitForPriceAvailability delayedPriceFetches 3 = (some 3, 2) :=
  (waitForPriceAvailability_first_truthy_price delayedPriceFetches 3).1
    1 { price := some 3, source := "jupiter", isFreezable := false } 3
    (by norm_num)
    (fun i hi => by
      have : i = 0 := by omega
      subst this; rfl)
    rfl rfl (by norm_num)

/-- Counterexample to claim C7 as stated: a Jupiter response whose data entry
for the mint exists but lacks a `price` field (a "missing price field") does
not make `getTokenInfo` return null — the guard at src/index.js:71 only checks
the entry itself, so a non-null TokenInfo with an undefined price is returned. -/
theorem getTokenInfo_missing_price_counterexample :
    getTokenInfo (JupiterResult.ok (some none)) (MintInfoResult.ok FreezeAuthority.jsNull) =
      some { price := none, source := "jupiter", isFreezable := false } := rfl

/-- Claim C7 (amended): `getTokenInfo` never throws to its caller — every
failure (network error on either request, a missing data entry for the mint,
malformed mint data) is swallowed and yields null; when the data entry exists
and the mint query is well-formed it returns a TokenInfo with the entry's
price copied verbatim (undefined when the entry lacks a price field), source
"jupiter", and `isFreezable = (freezeAuthority !== null)`. -/
theorem getTokenInfo_failure_and_success (jup : JupiterResult) (mintInfo : MintInfoResult) :
    (∀ m, jup = JupiterResult.netErr m → getTokenInfo jup mintInfo = none) ∧
    (jup = JupiterResult.ok none → getTokenInfo jup mintInfo = none) ∧
    (∀ m, mintInfo = MintInfoResult.netErr m → getTokenInfo jup mintInfo = none) ∧
    (mintInfo = MintInfoResult.malformed → getTokenInfo jup mintInfo = none) ∧
    (∀ p fa, jup = JupiterResult.ok (some p) → mintInfo = MintInfoResult.ok fa →
      getTokenInfo jup mintInfo =
        some { price := p, source := "jupiter",
               isFreezable := decide (fa ≠ FreezeAuthority.jsNull) }) := by
  refine ⟨?_, ?_, ?_, ?_, ?_⟩
  · rintro m rfl; rfl
  · rintro rfl; rfl
  · rintro m rfl
    rcases jup with m' | entry
    · rfl
    · rcases entry with _ | p
      · rfl
      · rfl
  · rintro rfl
    rcases jup with m' | entry
    · rfl
    · rcases entry with _ | p
      · rfl
      · rfl
  · rintro p fa rfl rfl; rfl

/-- Witness for the amended C7: a successful fetch (price `5`, freeze authority
set) returns the full TokenInfo. -/
theorem getTokenInfo_failure_and_success_witness :
    getTokenInfo (JupiterResult.ok (some (some 5)))
        (MintInfoResult.ok (FreezeAuthority.auth "k")) =
      some { price := some 5, source := "jupiter", isFreezable := true } := by
  have h := (getTokenInfo_failure_and_success (JupiterResult.ok (some (some 5)))
    (MintInfoResult.ok (FreezeAuthority.auth "k"))).2.2.2.2
    (some 5) (FreezeAuthority.auth "k") rfl rfl
  simpa using h

/-- Counterexample to claim C9 as stated: with `PRIVATE_KEY` absent (and
`API_KEY` present), the module-level check at src/index.js:16-18 throws before
`checkEnvVariables` ever runs, so the missing-variable list is never logged. -/
theorem startup_missing_private_key_counterexample :
    startup envMissingPrivateKey =
      StartupOutcome.thrownAtLoad "PRIVATE_KEY environment variable is not set." ∧
    startup envMissingPrivateKey ≠ StartupOutcome.exitCode1 ["PRIVATE_KEY"] := by
  constructor
  · rfl
  · intro h
    have h' : StartupOutcome.thrownAtLoad "PRIVATE_KEY environment variable is not set." =
        StartupOutcome.exitCode1 ["PRIVATE_KEY"] :=
      Eq.trans (Eq.symm rfl) h
    exact StartupOutcome.noConfusion h'

/-- Claim C9 (amended): if `PRIVATE_KEY` is absent (or empty) the module throws
at load, before the startup check runs, terminating without logging the
missing-variable list; if `PRIVATE_KEY` is present but `API_KEY` is absent,
`checkEnvVariables` logs the missing list `["API_KEY"]` and the process exits
with code 1; with both present, startup proceeds. -/
theorem startup_env_validation (env : String → Option String) :
    (jsTruthyStr (env "PRIVATE_KEY") = false →
      startup env = StartupOutcome.thrownAtLoad "PRIVATE_KEY environment variable is not set.") ∧
    (jsTruthyStr (env "PRIVATE_KEY") = true → jsTruthyStr (env "API_KEY") = false →
      startup env = StartupOutcome.exitCode1 ["API_KEY"]) ∧
    (jsTruthyStr (env "PRIVATE_KEY") = true → jsTruthyStr (env "API_KEY") = true →
      startup env = StartupOutcome.started) := by
  refine ⟨?_, ?_, ?_⟩
  · intro h
    simp [startup, h]
  · intro h1 h2
    simp [startup, h1, h2, missingEnvVars, requiredEnvVars, List.filter]
  · intro h1 h2
    simp [startup, h1, h2, missingEnvVars, requiredEnvVars, List.filter]

/-- Witness for the amended C9: `PRIVATE_KEY` present, `API_KEY` absent logs
`["API_KEY"]` and exits with code 1. -/
theorem startup_env_validation_witness :
    startup envOnlyPrivateKey = StartupOutcome.exitCode1 ["API_KEY"] :=
  (startup_env_validation envOnlyPrivateKey).2.1 (by decide) (by decide)

/-! ### Trace lemmas for the trade executor -/

theorem attemptStarts_nil : attemptStarts [] = 0 := rfl

theorem attemptStarts_cons (e : TradeEvent) (l : List TradeEvent) :
    attemptStarts (e :: l) = attemptStarts l + (if isAttemptStart e = true then 1 else 0) := by
  simp [attemptStarts, List.countP_cons]

theorem attemptStarts_append (l1 l2 : List TradeEvent) :
    attemptStarts (l1 ++ l2) = attemptStarts l1 + attemptStarts l2 := by
  simp [attemptStarts, List.countP_append]

theorem backoffs_nil : backoffs [] = [] := rfl

theorem backoffs_cons_getBalanceCall (l : List TradeEvent) :
    backoffs (TradeEvent.getBalanceCall :: l) = backoffs l := rfl

theorem backoffs_cons_getTokenBalanceCall (l : List TradeEvent) :
    backoffs (TradeEvent.getTokenBalanceCall :: l) = backoffs l := rfl

theorem backoffs_cons_backoffDelay (s : ℕ) (l : List TradeEvent) :
    backoffs (TradeEvent.backoffDelay s :: l) = s :: backoffs l := rfl

theorem backoffs_append (l1 l2 : List TradeEvent) :
    backoffs (l1 ++ l2) = backoffs l1 ++ backoffs l2 := by
  simp [backoffs, List.filterMap_append]

theorem quoteAmounts_cons_getBalanceCall (l : List TradeEvent) :
    quoteAmounts (TradeEvent.getBalanceCall :: l) = quoteAmounts l := rfl

theorem quoteAmounts_cons_getTokenBalanceCall (l : List TradeEvent) :
    quoteAmounts (TradeEvent.getTokenBalanceCall :: l) = quoteAmounts l := rfl

theorem attemptRest_starts (env : AttemptEnv) (im om : String) (a : ℚ) (b : Bool) (s : ℚ) :
    attemptStarts (attemptRest env im om a b s).2 = 0 := by
  unfold attemptRest
  repeat' split
  all_goals simp [attemptStarts, isAttemptStart]

theorem attemptRest_backoffs (env : AttemptEnv) (im om : String) (a : ℚ) (b : Bool) (s : ℚ) :
    backoffs (attemptRest env im om a b s).2 = [] := by
  unfold attemptRest
  repeat' split
  all_goals simp [backoffs]

theorem attemptRest_quoteAmounts (env : AttemptEnv) (im om : String) (a : ℚ) (b : Bool) (s : ℚ) :
    quoteAmounts (attemptRest env im om a b s).2 = [a] := by
  unfold attemptRest
  repeat' split
  all_goals simp [quoteAmounts]

theorem runAttempt_buy_throw (env : AttemptEnv) (addr : String) (p s : ℚ) (m : String)
    (hb : env.getBalance = Step.throw m) :
    runAttempt env addr p true s = (AttemptOutcome.failed m, [TradeEvent.getBalanceCall]) := by
  unfold runAttempt
  simp [hb]

theorem runAttempt_sell_throw (env : AttemptEnv) (addr : String) (p s : ℚ) (m : String)
    (hb : env.getTokenAccountBalance = Step.throw m) :
    runAttempt env addr p false s =
      (AttemptOutcome.failed m, [TradeEvent.getTokenBalanceCall]) := by
  unfold runAttempt
  simp [hb]

theorem runAttempt_buy_eq (env : AttemptEnv) (addr : String) (p s : ℚ) (b : ℤ)
    (hb : env.getBalance = Step.ok b) (h0 : ¬ buyAmount b p < 0) :
    runAttempt env addr p true s =
      ((attemptRest env solAddress addr (buyAmount b p) true s).1,
       TradeEvent.getBalanceCall :: (attemptRest env solAddress addr (buyAmount b p) true s).2) := by
  unfold runAttempt
  simp [hb, h0]

theorem runAttempt_buy_negative (env : AttemptEnv) (addr : String) (p s : ℚ) (b : ℤ)
    (hb : env.getBalance = Step.ok b) (h0 : buyAmount b p < 0) :
    runAttempt env addr p true s = (AttemptOutcome.returnedFalse, [TradeEvent.getBalanceCall]) := by
  unfold runAttempt
  simp [hb, h0]

theorem runAttempt_sell_eq (env : AttemptEnv) (addr : String) (p s : ℚ) (tb : TokenBalance)
    (hb : env.getTokenAccountBalance = Step.ok tb) :
    runAttempt env addr p false s =
      ((attemptRest env addr solAddress (sellAmount tb.uiAmount tb.decimals p) false s).1,
       TradeEvent.getTokenBalanceCall ::
         (attemptRest env addr solAddress (sellAmount tb.uiAmount tb.decimals p) false s).2) := by
  unfold runAttempt
  simp [hb]

theorem attemptRest_success (env : AttemptEnv) (im om : String) (a s : ℚ)
    (hq : env.quoteResponse = Step.ok true) (hs : env.swapResponse = Step.ok true)
    (hd : env.deserializeAndSign = Step.ok ()) (ha : env.addTransactions = Step.ok ())
    (t : String) (ts : List String) (ht : env.getTipAccounts = Step.ok (t :: ts))
    (hbl : env.getLatestBlockhash = Step.ok ()) (hat : env.addTipTx = Step.ok ())
    (u : String) (hsb : env.sendBundle = Step.ok (some u)) :
    attemptRest env im om a true s =
      (AttemptOutcome.success (initialPriceOf env.postBuyTokenInfo),
       [TradeEvent.quoteCall im om a (s * 100), TradeEvent.swapCall,
        TradeEvent.tipAccountsCall, TradeEvent.blockhashCall,
        TradeEvent.sendBundleCall, TradeEvent.priceRecheckCall]) := by
  unfold attemptRest
  rw [hq, hs, hd, ha, ht, hbl, hat, hsb]
  rfl

theorem runAttempt_starts (env : AttemptEnv) (addr : String) (p : ℚ) (isBuy : Bool) (s : ℚ) :
    attemptStarts (runAttempt env addr p isBuy s).2 = 1 := by
  cases isBuy with
  | false =>
    cases hb : env.getTokenAccountBalance with
    | throw m =>
      rw [runAttempt_sell_throw env addr p s m hb]
      simp [attemptStarts, isAttemptStart]
    | ok tb =>
      rw [runAttempt_sell_eq env addr p s tb hb]
      simp [attemptStarts_cons, attemptStarts_nil, attemptRest_starts, isAttemptStart]
  | true =>
    cases hb : env.getBalance with
    | throw m =>
      rw [runAttempt_buy_throw env addr p s m hb]
      simp [attemptStarts, isAttemptStart]
    | ok b =>
      by_cases h0 : buyAmount b p < 0
      · rw [runAttempt_buy_negative env addr p s b hb h0]
        simp [attemptStarts, isAttemptStart]
      · rw [runAttempt_buy_eq env addr p s b hb h0]
        simp [attemptStarts_cons, attemptStarts_nil, attemptRest_starts, isAttemptStart]

theorem runAttempt_backoffs (env : AttemptEnv) (addr : String) (p : ℚ) (isBuy : Bool) (s : ℚ) :
    backoffs (runAttempt env addr p isBuy s).2 = [] := by
  cases isBuy with
  | false =>
    cases hb : env.getTokenAccountBalance with
    | throw m =>
      rw [runAttempt_sell_throw env addr p s m hb]
      simp [backoffs]
    | ok tb =>
      rw [runAttempt_sell_eq env addr p s tb hb]
      simp only [backoffs_cons_getTokenBalanceCall, attemptRest_backoffs]
  | true =>
    cases hb : env.getBalance with
    | throw m =>
      rw [runAttempt_buy_throw env addr p s m hb]
      simp [backoffs]
    | ok b =>
      by_cases h0 : buyAmount b p < 0
      · rw [runAttempt_buy_negative env addr p s b hb h0]
        simp [backoffs]
      · rw [runAttempt_buy_eq env addr p s b hb h0]
        simp only [backoffs_cons_getBalanceCall, attemptRest_backoffs]

/-! ### Lemmas about the retry loop -/

theorem tradeLoop_starts_le (envs : ℕ → AttemptEnv) (addr : String) (p : ℚ)
    (isBuy : Bool) (s : ℚ) (maxR : ℤ) :
    ∀ (n retries : ℕ), (maxR - (retries : ℤ)).toNat = n →
    attemptStarts (tradeLoop envs addr p isBuy s maxR retries).2 ≤ n := by
  intro n
  induction n using Nat.strong_induction_on with
  | _ n ih =>
    intro retries hn
    rw [tradeLoop.eq_def]
    by_cases hlt : (retries : ℤ) < maxR
    · rw [dif_pos hlt]
      cases ho : (runAttempt (envs retries) addr p isBuy s).1 with
      | returnedFalse =>
        simp only [runAttempt_starts]
        omega
      | success ip =>
        simp only [runAttempt_starts]
        omega
      | failed m =>
        by_cases h2 : maxR ≤ (retries : ℤ) + 1
        · rw [dif_pos h2]
          simp only [runAttempt_starts]
          omega
        · rw [dif_neg h2]
          have hrec := ih (n - 1) (by omega) (retries + 1) (by push_cast; omega)
          simp only [attemptStarts_append, attemptStarts_cons, runAttempt_starts,
            isAttemptStart]
          simp only [Bool.false_eq_true, if_false]
          omega
    · rw [dif_neg hlt]
      simp [attemptStarts_nil]

theorem tradeLoop_allFail (envs : ℕ → AttemptEnv) (addr : String) (p : ℚ)
    (isBuy : Bool) (s : ℚ) (maxR : ℤ) :
    ∀ (n retries : ℕ), (maxR - (retries : ℤ)).toNat = n → (retries : ℤ) < maxR →
    (∀ i : ℕ, retries ≤ i → (i : ℤ) < maxR →
      ∃ m, (runAttempt (envs i) addr p isBuy s).1 = AttemptOutcome.failed m) →
    (tradeLoop envs addr p isBuy s maxR retries).1 = TradeReturn.falseRet ∧
    attemptStarts (tradeLoop envs addr p isBuy s maxR retries).2 = n ∧
    backoffs (tradeLoop envs addr p isBuy s maxR retries).2 =
      (List.range (n - 1)).map (fun j => 2 ^ (retries + 1 + j)) := by
  intro n
  induction n using Nat.strong_induction_on with
  | _ n ih =>
    intro retries hn hlt hfail
    obtain ⟨m, hm⟩ := hfail retries le_rfl hlt
    rw [tradeLoop.eq_def, dif_pos hlt]
    simp only [hm]
    by_cases h2 : maxR ≤ (retries : ℤ) + 1
    · rw [dif_pos h2]
      refine ⟨rfl, ?_, ?_⟩
      · rw [runAttempt_starts]
        omega
      · rw [runAttempt_backoffs]
        have hn1 : n - 1 = 0 := by omega
        rw [hn1]
        simp
    · rw [dif_neg h2]
      have hrec := ih (n - 1) (by omega) (retries + 1) (by push_cast; omega)
        (by push_cast; omega)
        (fun i hi hilt => hfail i (by omega) hilt)
      refine ⟨hrec.1, ?_, ?_⟩
      · rw [attemptStarts_append, attemptStarts_cons, runAttempt_starts, hrec.2.1]
        simp only [isAttemptStart, Bool.false_eq_true, if_false]
        omega
      · rw [backoffs_append, runAttempt_backoffs, backoffs_cons_backoffDelay, hrec.2.2]
        have hsplit : (List.range (n - 1)).map (fun j => 2 ^ (retries + 1 + j)) =
            2 ^ (retries + 1) ::
              (List.range (n - 1 - 1)).map (fun j => 2 ^ (retries + 1 + 1 + j)) := by
          rw [show n - 1 = (n - 1 - 1) + 1 by omega, List.range_succ_eq_map,
            List.map_cons, List.map_map]
          refine congrArg₂ List.cons (by norm_num) ?_
          refine List.map_congr_left ?_
          intro j _
          simp only [Function.comp]
          congr 1
          omega
        rw [hsplit]
        simp

theorem tradeLoop_success (envs : ℕ → AttemptEnv) (addr : String) (p : ℚ)
    (isBuy : Bool) (s : ℚ) (maxR : ℤ) (ip : Option ℚ) :
    ∀ (d retries k : ℕ), retries + d = k → (k : ℤ) < maxR →
    (∀ i : ℕ, retries ≤ i → i < k →
      ∃ m, (runAttempt (envs i) addr p isBuy s).1 = AttemptOutcome.failed m) →
    (runAttempt (envs k) addr p isBuy s).1 = AttemptOutcome.success ip →
    (tradeLoop envs addr p isBuy s maxR retries).1 = TradeReturn.objRet ip ∧
    attemptStarts (tradeLoop envs addr p isBuy s maxR retries).2 = d + 1 := by
  intro d
  induction d with
  | zero =>
    intro retries k hk hklt hfail hsucc
    have hrk : retries = k := by omega
    subst hrk
    rw [tradeLoop.eq_def, dif_pos hklt]
    simp only [hsucc]
    refine ⟨?_, runAttempt_starts _ _ _ _ _⟩
    simp
  | succ d ih =>
    intro retries k hk hklt hfail hsucc
    have hrlt : (retries : ℤ) < maxR := by omega
    obtain ⟨m, hm⟩ := hfail retries le_rfl (by omega)
    rw [tradeLoop.eq_def, dif_pos hrlt]
    simp only [hm]
    have h2 : ¬ maxR ≤ (retries : ℤ) + 1 := by omega
    rw [dif_neg h2]
    have hrec := ih (retries + 1) k (by omega) hklt
      (fun i hi hik => hfail i (by omega) hik) hsucc
    refine ⟨hrec.1, ?_⟩
    rw [attemptStarts_append, attemptStarts_cons, runAttempt_starts, hrec.2]
    simp only [isAttemptStart, Bool.false_eq_true, if_false]
    omega

/-- Claim C2: on a buy attempt with fetched balance `b`, for every valid
percentage p in (0,100] the trade size equals
`floor(balance * p/100) - gasFee - tipAmount` (gas fee 5000, tip 10000
lamports, exactly the amount passed to the quote endpoint); whenever this
value is negative the call returns `false` immediately and performs no quote
and no submission — the trace is just the balance read. -/
theorem buyAmount_formula_and_abort (env : AttemptEnv) (envs : ℕ → AttemptEnv)
    (addr : String) (p : ℚ) (b : ℤ) (s : ℚ) (maxR : ℤ)
    (hp0 : 0 < p) (hp1 : p ≤ 100) (hb : env.getBalance = Step.ok b)
    (henv : envs 0 = env) (hmr : 1 ≤ maxR) :
    buyAmount b p = ((⌊(b : ℚ) * p / 100⌋ : ℤ) : ℚ) - 5000 - 10000 ∧
    (¬ buyAmount b p < 0 →
      quoteAmounts (runAttempt env addr p true s).2 = [buyAmount b p]) ∧
    (buyAmount b p < 0 →
      tradeTokenWithJupiter envs addr p true s maxR =
        (TradeReturn.falseRet, [TradeEvent.getBalanceCall])) := by
  refine ⟨?_, ?_, ?_⟩
  · unfold buyAmount
    rw [mul_div_assoc]
    norm_num [SOLANA_GAS_FEE_PRICE, JITO_TIP_AMOUNT, LAMPORTS_PER_SOL]
  · intro h0
    rw [runAttempt_buy_eq env addr p s b hb h0]
    simp only [quoteAmounts_cons_getBalanceCall, attemptRest_quoteAmounts]
  · intro h0
    unfold tradeTokenWithJupiter
    rw [tradeLoop.eq_def, dif_pos (by push_cast; omega : ((0 : ℕ) : ℤ) < maxR), henv]
    simp only [runAttempt_buy_negative env addr p s b hb h0]

/-- Witness for C2: with balance 1,000,000,000 lamports and p = 6 the computed
amount is 59,985,000; with balance 0 the amount is negative and the trade
returns false after only the balance read. -/
theorem buyAmount_formula_and_abort_witness :
    buyAmount 1000000000 6 = ((⌊(1000000000 : ℚ) * 6 / 100⌋ : ℤ) : ℚ) - 5000 - 10000 ∧
    buyAmount 1000000000 6 = 59985000 ∧
    tradeTokenWithJupiter (fun _ => okEnv 0 none) "tok" 6 true 5 3 =
      (TradeReturn.falseRet, [TradeEvent.getBalanceCall]) := by
  have h1 := buyAmount_formula_and_abort (okEnv 1000000000 none)
    (fun _ => okEnv 1000000000 none) "tok" 6 1000000000 5 3
    (by norm_num) (by norm_num) rfl rfl (by norm_num)
  have h2 := buyAmount_formula_and_abort (okEnv 0 none) (fun _ => okEnv 0 none)
    "tok" 6 0 5 3 (by norm_num) (by norm_num) rfl rfl (by norm_num)
  refine ⟨h1.1, ?_, h2.2.2 ?_⟩
  · rw [h1.1]
    norm_num
  · rw [h2.1]
    norm_num

/-- Claim C8: on a sell attempt with fetched token balance, for every valid
percentage p in (0,100] the trade size equals
`floor(uiAmount * p/100 * 10^decimals)`, and exactly this amount is passed to
the quote endpoint. -/
theorem sellAmount_formula (env : AttemptEnv) (addr : String) (p : ℚ)
    (tb : TokenBalance) (s : ℚ)
    (hp0 : 0 < p) (hp1 : p ≤ 100) (hb : env.getTokenAccountBalance = Step.ok tb) :
    sellAmount tb.uiAmount tb.decimals p =
      ((⌊tb.uiAmount * p / 100 * (10 : ℚ) ^ tb.decimals⌋ : ℤ) : ℚ) ∧
    quoteAmounts (runAttempt env addr p false s).2 =
      [sellAmount tb.uiAmount tb.decimals p] := by
  constructor
  · unfold sellAmount
    rw [mul_div_assoc]
  · rw [runAttempt_sell_eq env addr p s tb hb]
    simp only [quoteAmounts_cons_getTokenBalanceCall, attemptRest_quoteAmounts]

/-- Witness for C8: uiAmount 100, 6 decimals, p = 50 gives amount 50,000,000,
which is the amount quoted. -/
theorem sellAmount_formula_witness :
    sellAmount 100 6 50 = ((⌊(100 : ℚ) * 50 / 100 * (10 : ℚ) ^ 6⌋ : ℤ) : ℚ) ∧
    quoteAmounts (runAttempt (okEnv 0 none) "tok" 50 false 5).2 = [sellAmount 100 6 50] ∧
    sellAmount 100 6 50 = 50000000 := by
  have h := sellAmount_formula (okEnv 0 none) "tok" 50 ⟨100, 6⟩ 5
    (by norm_num) (by norm_num) rfl
  refine ⟨h.1, h.2, ?_⟩
  rw [h.1]
  norm_num

/-- Claim C3: the retry loop performs at most `maxRetries` attempts for any
outcome pattern; and when every attempt fails, exactly `maxRetries` attempts
are started, the call returns `false`, and the backoff delays between attempts
are exactly `2^1, 2^2, ..., 2^(maxRetries-1)` seconds — one after each failed
attempt except the last, strictly increasing. -/
theorem tradeTokenWithJupiter_retry_policy :
    (∀ (envs : ℕ → AttemptEnv) (addr : String) (p : ℚ) (isBuy : Bool) (s : ℚ) (maxR : ℤ),
      attemptStarts (tradeTokenWithJupiter envs addr p isBuy s maxR).2 ≤ maxR.toNat) ∧
    (∀ (envs : ℕ → AttemptEnv) (addr : String) (p : ℚ) (isBuy : Bool) (s : ℚ) (maxR : ℤ),
      1 ≤ maxR →
      (∀ i : ℕ, (i : ℤ) < maxR →
        ∃ m, (runAttempt (envs i) addr p isBuy s).1 = AttemptOutcome.failed m) →
      (tradeTokenWithJupiter envs addr p isBuy s maxR).1 = TradeReturn.falseRet ∧
      attemptStarts (tradeTokenWithJupiter envs addr p isBuy s maxR).2 = maxR.toNat ∧
      backoffs (tradeTokenWithJupiter envs addr p isBuy s maxR).2 =
        (List.range (maxR.toNat - 1)).map (fun j => 2 ^ (j + 1))) := by
  constructor
  · intro envs addr p isBuy s maxR
    unfold tradeTokenWithJupiter
    exact tradeLoop_starts_le envs addr p isBuy s maxR maxR.toNat 0 (by push_cast; omega)
  · intro envs addr p isBuy s maxR hmr hfail
    unfold tradeTokenWithJupiter
    have h := tradeLoop_allFail envs addr p isBuy s maxR maxR.toNat 0
      (by push_cast; omega) (by push_cast; omega) (fun i _ hilt => hfail i hilt)
    refine ⟨h.1, h.2.1, ?_⟩
    rw [h.2.2]
    refine List.map_congr_left ?_
    intro j _
    congr 1
    omega

/-- Witness for C3: with `maxRetries = 3` and every attempt failing, the trade
returns false after exactly three attempts with backoff delays 2 and 4 seconds
(and no fourth attempt). -/
theorem tradeTokenWithJupiter_retry_policy_witness :
    (tradeTokenWithJupiter (fun _ => failEnv) "tok" 6 true 5 3).1 = TradeReturn.falseRet ∧
    attemptStarts (tradeTokenWithJupiter (fun _ => failEnv) "tok" 6 true 5 3).2 = 3 ∧
    backoffs (tradeTokenWithJupiter (fun _ => failEnv) "tok" 6 true 5 3).2 = [2, 4] := by
  have h := tradeTokenWithJupiter_retry_policy.2 (fun _ => failEnv) "tok" 6 true 5 3
    (by norm_num) (fun i _ => ⟨"network", rfl⟩)
  refine ⟨h.1, ?_, ?_⟩
  · rw [h.2.1]
    decide
  · rw [h.2.2]
    decide

/-- Claim C5: a buy attempt whose bundle submission succeeds immediately
re-queries the price (the `priceRecheckCall` in the trace) and yields
`{success: true, initialPrice}` with `initialPrice` the queried price — and
`initialPrice = null` when the re-query fails, still as a successful trade;
at the loop level, a success on attempt `k` (after `k` failures) returns
`{success: true, initialPrice}` with no further attempts started. -/
theorem tradeTokenWithJupiter_buy_success :
    (∀ (env : AttemptEnv) (addr : String) (p s : ℚ) (b : ℤ) (t u : String)
        (ts : List String),
      env.getBalance = Step.ok b → ¬ buyAmount b p < 0 →
      env.quoteResponse = Step.ok true → env.swapResponse = Step.ok true →
      env.deserializeAndSign = Step.ok () → env.addTransactions = Step.ok () →
      env.getTipAccounts = Step.ok (t :: ts) → env.getLatestBlockhash = Step.ok () →
      env.addTipTx = Step.ok () → env.sendBundle = Step.ok (some u) →
      (runAttempt env addr p true s).1 =
        AttemptOutcome.success (initialPriceOf env.postBuyTokenInfo) ∧
      TradeEvent.priceRecheckCall ∈ (runAttempt env addr p true s).2 ∧
      (env.postBuyTokenInfo = none →
        (runAttempt env addr p true s).1 = AttemptOutcome.success none)) ∧
    (∀ (envs : ℕ → AttemptEnv) (addr : String) (p s : ℚ) (maxR : ℤ) (k : ℕ)
        (ip : Option ℚ),
      (k : ℤ) < maxR →
      (∀ i : ℕ, i < k →
        ∃ m, (runAttempt (envs i) addr p true s).1 = AttemptOutcome.failed m) →
      (runAttempt (envs k) addr p true s).1 = AttemptOutcome.success ip →
      (tradeTokenWithJupiter envs addr p true s maxR).1 = TradeReturn.objRet ip ∧
      attemptStarts (tradeTokenWithJupiter envs addr p true s maxR).2 = k + 1) := by
  constructor
  · intro env addr p s b t u ts hb h0 hq hs hd ha ht hbl hat hsb
    have he := runAttempt_buy_eq env addr p s b hb h0
    have hr := attemptRest_success env solAddress addr (buyAmount b p) s hq hs hd ha
      t ts ht hbl hat u hsb
    rw [he, hr]
    refine ⟨rfl, by simp, fun hpost => by simp [initialPriceOf, hpost]⟩
  · intro envs addr p s maxR k ip hk hfail hsucc
    unfold tradeTokenWithJupiter
    exact tradeLoop_success envs addr p true s maxR ip k 0 k (by omega) hk
      (fun i _ hik => hfail i hik) hsucc

/-- Witness for C5: attempt 0 fails, attempt 1 succeeds with re-queried price
`2`; the trade returns `{success: true, initialPrice: 2}` after exactly two
attempts. -/
theorem tradeTokenWithJupiter_buy_success_witness :
    (tradeTokenWithJupiter successEnvs "tok" 6 true 5 3).1 = TradeReturn.objRet (some 2) ∧
    attemptStarts (tradeTokenWithJupiter successEnvs "tok" 6 true 5 3).2 = 2 := by
  have hA := tradeTokenWithJupiter_buy_success.1
    (okEnv 1000000000 (some { price := some 2, source := "jupiter", isFreezable := false }))
    "tok" 6 5 1000000000 "tip1" "uuid" [] rfl
    (by norm_num [buyAmount, SOLANA_GAS_FEE_PRICE, JITO_TIP_AMOUNT, LAMPORTS_PER_SOL])
    rfl rfl rfl rfl rfl rfl rfl rfl
  have h := tradeTokenWithJupiter_buy_success.2 successEnvs "tok" 6 5 3 1 (some 2)
    (by norm_num)
    (fun i hi => by
      have h0 : i = 0 := by omega
      subst h0
      exact ⟨"network", rfl⟩)
    (by
      rw [show successEnvs 1 =
        okEnv 1000000000 (some { price := some 2, source := "jupiter", isFreezable := false })
        from rfl]
      simpa [initialPriceOf] using hA.1)
  exact ⟨h.1, by rw [h.2]⟩

/-- Claim C10: calling `tradeTokenWithJupiter` with `maxRetries <= 0` skips
the retry loop entirely — no attempt, no event — and the function returns
`undefined`, which is neither `false` nor a `{success, initialPrice}` object. -/
theorem tradeTokenWithJupiter_nonpositive_maxRetries (envs : ℕ → AttemptEnv)
    (addr : String) (p : ℚ) (isBuy : Bool) (s : ℚ) (maxR : ℤ) (h : maxR ≤ 0) :
    tradeTokenWithJupiter envs addr p isBuy s maxR = (TradeReturn.undefinedRet, []) ∧
    TradeReturn.undefinedRet ≠ TradeReturn.falseRet ∧
    (∀ ip, TradeReturn.undefinedRet ≠ TradeReturn.objRet ip) := by
  refine ⟨?_, by simp, fun ip => by simp⟩
  unfold tradeTokenWithJupiter
  rw [tradeLoop.eq_def, dif_neg (by push_cast; omega)]

/-- Witness for C10 at `maxRetries = 0`. -/
theorem tradeTokenWithJupiter_nonpositive_maxRetries_witness :
    tradeTokenWithJupiter (fun _ => failEnv) "tok" 6 true 5 0 =
      (TradeReturn.undefinedRet, []) :=
  (tradeTokenWithJupiter_nonpositive_maxRetries (fun _ => failEnv) "tok" 6 true 5 0
    (by norm_num)).1
